import Mathlib

/-!
Verification of the medical report simplifier service (app.py).

This file gives a shallow embedding of the processing pipeline of the
repository: text preprocessing, report type detection, regex based test
result extraction, status classification, categorization, report
formatting, recommendation generation, file text extraction and the
orchestrator, together with theorems settling claims C1 to C10.

Modelling conventions:
- Python floats are embedded as exact rationals; the claims only involve
  short decimal numerals, where exact rational arithmetic and Python
  float arithmetic agree.
- Python exceptions are embedded as Except (an uncaught exception is an
  error value); functions that the source makes total by catching are
  total here by construction.
- Wall clock readings (analysis date, timestamp, processing time) are
  impure inputs of the source and are threaded as ordinary parameters.
- Character classes of the re module are taken at their ASCII meaning,
  which is the only part the reports and keyword tables exercise.
-/

set_option allowUnsafeReducibility true

attribute [local semireducible] Rat.mul Rat.add Rat.sub Rat.inv Rat.ofScientific

deriving instance DecidableEq for Except

/-- Whitespace class of the Python re module and of str.strip, ASCII scope. -/
def isPySpace (c : Char) : Bool :=
  c == ' ' || c == '\t' || c == '\n' || c == '\r' || c == '\x0b' || c == '\x0c'

/-- Python str.lower, ASCII scope. -/
def lowerStr (s : String) : String := ⟨s.data.map Char.toLower⟩

/-- Python str.upper, ASCII scope. -/
def upperStr (s : String) : String := ⟨s.data.map Char.toUpper⟩

/-- Strip leading and trailing whitespace from a character list. -/
def stripL (l : List Char) : List Char :=
  ((l.dropWhile isPySpace).reverse.dropWhile isPySpace).reverse

/-- Python str.strip(). -/
def pyStrip (s : String) : String := ⟨stripL s.data⟩

/-- One pass collapsing every whitespace run to a single space:
the effect of re.sub applied with the whitespace-run pattern and a
single space replacement.  The flag tells whether the previous character
was whitespace. -/
def collapseAux : Bool → List Char → List Char
  | _, [] => []
  | prevWs, c :: cs =>
    if isPySpace c then
      if prevWs then collapseAux true cs else ' ' :: collapseAux true cs
    else c :: collapseAux false cs

def collapseWs (l : List Char) : List Char := collapseAux false l

/-- Python str.replace on character lists: replace non overlapping
occurrences of old, scanning left to right.  Fuel bounded (fuel at least
the length of the text suffices for nonempty old, the only case the
source uses). -/
def replaceAux (old new : List Char) : Nat → List Char → List Char
  | _, [] => []
  | 0, s => s
  | fuel + 1, c :: cs =>
    if old.isPrefixOf (c :: cs) then
      new ++ replaceAux old new fuel (cs.drop (old.length - 1))
    else
      c :: replaceAux old new fuel cs

/-- Python str.replace on strings. -/
def pyReplace (s old new : String) : String :=
  ⟨replaceAux old.data new.data s.data.length s.data⟩

/-- Python substring membership test: needle in hay. -/
def containsSub (needle hay : String) : Bool :=
  (List.range (hay.data.length + 1)).any
    (fun i => needle.data.isPrefixOf (hay.data.drop i))

/-- The OCR correction table of preprocess_text, in insertion order. -/
def corrections : List (String × String) :=
  [("rn", "m"), ("l", "1"), ("O", "0"), ("o", "0"), ("|", "1")]

def applyCorrection (acc : List Char) (p : String × String) : List Char :=
  replaceAux p.1.data p.2.data acc.length acc

/-- preprocess_text: collapse whitespace, apply the OCR correction
substitutions in order, strip. -/
def preprocess_text (text : String) : String :=
  ⟨stripL (corrections.foldl applyCorrection (collapseWs text.data))⟩

/-- detect_report_type: first keyword category hit in the fixed order,
else general. -/
def detect_report_type (text : String) : String :=
  let text_lower := lowerStr text
  if ["hba1c", "glucose", "diabetes", "glycemic"].any
      (fun term => containsSub term text_lower) then "diabetes"
  else if ["cholesterol", "ldl", "hdl", "triglycerides", "lipid"].any
      (fun term => containsSub term text_lower) then "cardiac"
  else if ["cbc", "complete blood count", "wbc", "rbc", "hemoglobin"].any
      (fun term => containsSub term text_lower) then "blood_work"
  else if ["tsh", "t4", "t3", "thyroid"].any
      (fun term => containsSub term text_lower) then "thyroid"
  else if ["alt", "ast", "bilirubin", "liver"].any
      (fun term => containsSub term text_lower) then "liver"
  else if ["creatinine", "bun", "egfr", "kidney"].any
      (fun term => containsSub term text_lower) then "kidney"
  else "general"

/-- Modelled from the claim wording: the ordered category keyword table. -/
def report_type_keywords : List (String × List String) :=
  [("diabetes", ["hba1c", "glucose", "diabetes", "glycemic"]),
   ("cardiac", ["cholesterol", "ldl", "hdl", "triglycerides", "lipid"]),
   ("blood_work", ["cbc", "complete blood count", "wbc", "rbc", "hemoglobin"]),
   ("thyroid", ["tsh", "t4", "t3", "thyroid"]),
   ("liver", ["alt", "ast", "bilirubin", "liver"]),
   ("kidney", ["creatinine", "bun", "egfr", "kidney"])]

/-- First category whose keyword set hits the lower cased text. -/
def firstCategory : List (String × List String) → String → String
  | [], _ => "general"
  | (cat, kws) :: rest, text_lower =>
    if kws.any (fun term => containsSub term text_lower) then cat
    else firstCategory rest text_lower

/-- The detector as described by the specification: test the keyword sets
in the fixed priority order, first hit wins, general when none hit. -/
def detectReportTypeSpec (text : String) : String :=
  firstCategory report_type_keywords (lowerStr text)

/-!
A small backtracking regular expression engine, enough for the three
patterns of _extract_test_results: single character classes under the
quantifiers star, plus and option (greedy and lazy), sequencing and
capturing groups.  Alternatives are produced in the preference order of
the Python re backtracking engine, so the head of the produced list is
the match Python reports.  re.IGNORECASE is a no-op on these patterns
because every character class in them is already case symmetric.
-/

inductive RE where
  | eps
  | cls (p : Char → Bool)
  | seq (a b : RE)
  | grp (i : Nat) (a : RE)
  | star (greedy : Bool) (a : RE)
  | opt (greedy : Bool) (a : RE)

/-- One or more repetitions. -/
def RE.rep1 (greedy : Bool) (a : RE) : RE := .seq a (.star greedy a)

def reSeq : List RE → RE
  | [] => .eps
  | [r] => r
  | r :: rs => .seq r (reSeq rs)

/-- Captured groups: group index paired with the captured characters.
Later entries are older; lookup takes the first entry. -/
abbrev Caps := List (Nat × List Char)

def capGet (caps : Caps) (i : Nat) : List Char :=
  match caps.find? (fun p => p.1 == i) with
  | some p => p.2
  | none => []

/-- All ways a regex can match a prefix of the input, each as the pair of
the remaining input and the captures, in backtracking preference order.
Fuel bounded; the fuel used below is far above the maximal recursion
depth on the inputs evaluated. -/
def mtch : Nat → RE → List Char → Caps → List (List Char × Caps)
  | 0, _, _, _ => []
  | _ + 1, .eps, s, caps => [(s, caps)]
  | _ + 1, .cls p, s, caps =>
    match s with
    | [] => []
    | c :: rest => if p c then [(rest, caps)] else []
  | fuel + 1, .seq a b, s, caps =>
    (mtch fuel a s caps).flatMap (fun r => mtch fuel b r.1 r.2)
  | fuel + 1, .grp i a, s, caps =>
    (mtch fuel a s caps).map
      (fun r => (r.1, (i, s.take (s.length - r.1.length)) :: r.2))
  | fuel + 1, .star g a, s, caps =>
    let tails := (mtch fuel a s caps).flatMap (fun r =>
      if r.1.length < s.length then mtch fuel (.star g a) r.1 r.2
      else [(r.1, r.2)])
    if g then tails ++ [(s, caps)] else (s, caps) :: tails
  | fuel + 1, .opt g a, s, caps =>
    if g then mtch fuel a s caps ++ [(s, caps)]
    else (s, caps) :: mtch fuel a s caps

def mfuel (s : List Char) : Nat := (s.length + 5) * 60

/-- re.finditer: scan left to right, report the first (preferred) match at
the leftmost position where one exists, continue after its end. -/
def findIterAux (r : RE) (s : List Char) : Nat → Nat → List Caps
  | _, 0 => []
  | pos, fuel + 1 =>
    if pos ≤ s.length then
      match mtch (mfuel s) r (s.drop pos) [] with
      | [] => findIterAux r s (pos + 1) fuel
      | (rest, caps) :: _ =>
        let stop := s.length - rest.length
        caps :: findIterAux r s (if pos < stop then stop else pos + 1) fuel
    else []

def findIter (r : RE) (s : List Char) : List Caps :=
  findIterAux r s 0 (s.length + 2)

/-! Character classes of the three patterns. -/

def isAlphaWs (c : Char) : Bool := c.isAlpha || isPySpace c
def isDigitDot (c : Char) : Bool := c.isDigit || c == '.'
def isUnitsChar (c : Char) : Bool := c.isAlpha || c == '/' || c == '%'
def isDigitDotDash (c : Char) : Bool := c.isDigit || c == '.' || c == '-'
def isDashChar (c : Char) : Bool := c == '-' || c == '–'
def isOpenBr (c : Char) : Bool := c == '(' || c == '['
def isCloseBr (c : Char) : Bool := c == ')' || c == ']'
def isColonEq (c : Char) : Bool := c == ':' || c == '='
def isSlash (c : Char) : Bool := c == '/'
def notAnyBr (c : Char) : Bool := !(c == '(' || c == ')' || c == '[' || c == ']')
def isOpenBr3 (c : Char) : Bool := c == '(' || c == '[' || c == '\x7b'
def isCloseBr3 (c : Char) : Bool := c == ')' || c == ']' || c == '\x7d'
def notCloseBr3 (c : Char) : Bool := !(c == ')' || c == ']' || c == '\x7d')

def ws0 : RE := .star true (.cls isPySpace)
def ws1 : RE := RE.rep1 true (.cls isPySpace)

/-- The range group shared by the first two patterns. -/
def rangeGroup : RE :=
  .grp 4 (reSeq [RE.rep1 true (.cls isDigitDotDash), ws0, .cls isDashChar,
                 ws0, RE.rep1 true (.cls isDigitDotDash)])

/-- First pattern: name, colon or equals, value, units, bracketed range. -/
def pattern1 : RE :=
  reSeq [.grp 1 (RE.rep1 true (.cls isAlphaWs)), ws0, .cls isColonEq, ws0,
         .grp 2 (RE.rep1 true (.cls isDigitDot)), ws0,
         .grp 3 (.star true (.cls isUnitsChar)), ws0,
         .opt true (.cls isOpenBr), ws0, rangeGroup, ws0,
         .opt true (.cls isCloseBr)]

/-- Second pattern: name, whitespace, value, optional slash, units,
bracketed range. -/
def pattern2 : RE :=
  reSeq [.grp 1 (RE.rep1 true (.cls isAlphaWs)), ws1,
         .grp 2 (RE.rep1 true (.cls isDigitDot)), ws0,
         .opt true (.cls isSlash), ws0,
         .grp 3 (.star true (.cls isUnitsChar)), ws0,
         .opt true (.cls isOpenBr), ws0, rangeGroup, ws0,
         .opt true (.cls isCloseBr)]

/-- Third pattern: name, whitespace, value, lazy units run, any bracket
style around the range. -/
def pattern3 : RE :=
  reSeq [.grp 1 (RE.rep1 true (.cls isAlphaWs)), ws1,
         .grp 2 (RE.rep1 true (.cls isDigitDot)), ws0,
         .grp 3 (.star false (.cls notAnyBr)), ws0,
         .cls isOpenBr3, .grp 4 (RE.rep1 true (.cls notCloseBr3)),
         .cls isCloseBr3]

def report_patterns : List RE := [pattern1, pattern2, pattern3]

/-- The units cleanup of the extractor: re.sub removing every character
that is not a word character, a slash or a percent sign. -/
def isWordChar (c : Char) : Bool := c.isAlphanum || c == '_'

def cleanUnits (s : String) : String :=
  ⟨s.data.filter (fun c => isWordChar c || c == '/' || c == '%')⟩

/-- The character class of the range cleanup.  In the source the class
is digits, then dot, dash, en dash; the unescaped dash between dot and
en dash makes the re module parse it as the codepoint range from dot
(U+002E) to en dash (U+2013), so the class is: digits, or any codepoint
between dot and en dash inclusive. -/
def inRangeClass (c : Char) : Bool :=
  c.isDigit || ('.'.toNat ≤ c.toNat && c.toNat ≤ 0x2013)

/-- The range cleanup of the extractor: re.sub replacing every character
outside the class by a space. -/
def cleanRange (s : String) : String :=
  ⟨s.data.map (fun c => if inRangeClass c then c else ' ')⟩

structure TestResult where
  test_name : String
  value : String
  units : String
  normal_range : String
deriving DecidableEq, Repr

/-- The body of the extraction loop: build a TestResult from the four
captured groups of a match. -/
def resultOfCaps (caps : Caps) : TestResult :=
  { test_name := pyStrip ⟨capGet caps 1⟩
    value := pyStrip ⟨capGet caps 2⟩
    units := cleanUnits (pyStrip ⟨capGet caps 3⟩)
    normal_range := cleanRange (pyStrip ⟨capGet caps 4⟩) }

/-- _extract_test_results: run the three patterns in order over the text,
emit one TestResult per match, in match order, no deduplication. -/
def extract_test_results (text : String) : List TestResult :=
  (report_patterns.flatMap (fun p => findIter p text.data)).map resultOfCaps

def strTake (s : String) (n : Nat) : String := ⟨s.data.take n⟩
def strDrop (s : String) (n : Nat) : String := ⟨s.data.drop n⟩
def strLen (s : String) : Nat := s.data.length

/-- Python repr of a float holding an exact decimal value: integral
values print with a trailing .0, other decimal values print their
shortest decimal digits.  On the short decimal literals of this code
base this agrees with CPython float printing. -/
def fmtF (q : ℚ) : String :=
  let sign := if q < 0 then "-" else ""
  let a := |q|
  match (List.range 31).find? (fun k => (a * (10 : ℚ) ^ k).den == 1) with
  | none => sign ++ toString a.num ++ "/" ++ toString a.den
  | some k =>
    if k == 0 then sign ++ toString a.num ++ ".0"
    else
      let m := (a * (10 : ℚ) ^ k).num.natAbs
      let ds := toString m
      let ds := if ds.length ≤ k then
          String.mk (List.replicate (k + 1 - ds.length) '0') ++ ds
        else ds
      sign ++ strTake ds (ds.length - k) ++ "." ++ strDrop ds (ds.length - k)

/-- A Python number: the static range table holds int literals, while
float() and map(float, ...) produce floats; the two print differently
inside the explanation messages. -/
inductive PyNum where
  | int (n : Int)
  | float (q : ℚ)
deriving DecidableEq

def PyNum.val : PyNum → ℚ
  | .int n => n
  | .float q => q

def PyNum.str : PyNum → String
  | .int n => toString n
  | .float q => fmtF q

/-- Split a character list at every occurrence of a separator. -/
def splitOnChar (sep : Char) : List Char → List (List Char)
  | [] => [[]]
  | c :: cs =>
    let r := splitOnChar sep cs
    if c == sep then [] :: r
    else
      match r with
      | h :: t => (c :: h) :: t
      | [] => [[c]]

def digitsToNat (l : List Char) : Nat :=
  l.foldl (fun a c => a * 10 + (c.toNat - 48)) 0

/-- Python float() on a string, as an exact rational: strip whitespace,
optional sign, decimal digits with at most one dot, at least one digit.
The exotic accepted forms (exponents, underscores, inf, nan) are outside
everything this code base feeds to float() from its regexes and tables
and are modelled as parse failures. -/
def pyFloat? (s : String) : Option ℚ :=
  let t := stripL s.data
  let sgn : ℚ := match t with | '-' :: _ => -1 | _ => 1
  let u : List Char := match t with | '-' :: r => r | '+' :: r => r | _ => t
  match splitOnChar '.' u with
  | [a] =>
    if a ≠ [] ∧ a.all Char.isDigit then some (sgn * digitsToNat a) else none
  | [a, b] =>
    if (a ≠ [] ∨ b ≠ []) ∧ a.all Char.isDigit ∧ b.all Char.isDigit then
      some (sgn * ((digitsToNat a : ℚ) + (digitsToNat b : ℚ) / (10 : ℚ) ^ b.length))
    else none
  | _ => none

/-- re.findall of maximal digit-or-dot runs, the range token scan of
_determine_status. -/
def numRuns : List Char → List (List Char)
  | [] => []
  | c :: cs =>
    if isDigitDot c then
      match numRuns cs with
      | r :: rs =>
        match cs with
        | c2 :: _ => if isDigitDot c2 then (c :: r) :: rs else [c] :: r :: rs
        | [] => [[c]]
      | [] => [[c]]
    else numRuns cs

def numTokens (s : String) : List String := (numRuns s.data).map String.mk

/-- A static range table entry: a sex neutral pair or a male and female
pair, plus the units string. -/
inductive RangeSpec where
  | range (low high : PyNum)
  | sexed (mlow mhigh flow fhigh : PyNum)
deriving DecidableEq

/-- The static normal_ranges table. -/
def normal_ranges : List (String × RangeSpec × String) :=
  [("hemoglobin", .sexed (.float 13.8) (.float 17.2) (.float 12.1) (.float 15.1), "g/dL"),
   ("wbc", .range (.float 4.5) (.float 11.0), "x10^9/L"),
   ("rbc", .sexed (.float 4.5) (.float 5.9) (.float 4.1) (.float 5.1), "x10^12/L"),
   ("platelets", .range (.int 150) (.int 450), "x10^9/L"),
   ("glucose", .range (.int 70) (.int 100), "mg/dL"),
   ("creatinine", .sexed (.float 0.7) (.float 1.3) (.float 0.6) (.float 1.1), "mg/dL"),
   ("sodium", .range (.int 135) (.int 145), "mmol/L"),
   ("potassium", .range (.float 3.5) (.float 5.1), "mmol/L"),
   ("ldl", .range (.int 0) (.int 100), "mg/dL"),
   ("hdl", .range (.int 40) (.int 60), "mg/dL"),
   ("hba1c", .range (.float 4.0) (.float 5.6), "%")]

def lookupRange (key : String) : Option (RangeSpec × String) :=
  (normal_ranges.find? (fun p => p.1 == key)).map (fun p => p.2)

/-- Outcome of the bound determination step of _determine_status. -/
inductive BoundsOutcome where
  | found (low high : PyNum)
  | parseErr
  | noSource
deriving DecidableEq

/-- Bound determination: two or more numeric tokens in the range string
take priority (a token float() rejects raises ValueError, caught by the
surrounding handler); otherwise the static table keyed by the lower
cased test name, using the male pair when the entry is sex specific. -/
def boundsFor (test_lower : String) (normal_range : String) : BoundsOutcome :=
  match numTokens normal_range with
  | p0 :: p1 :: _ =>
    match pyFloat? p0, pyFloat? p1 with
    | some low, some high => .found (.float low) (.float high)
    | _, _ => .parseErr
  | _ =>
    match lookupRange test_lower with
    | some (.range low high, _) => .found low high
    | some (.sexed mlow mhigh _ _, _) => .found mlow mhigh
    | none => .noSource

def rangeText (low high : PyNum) : String :=
  "(" ++ low.str ++ "-" ++ high.str ++ ")"

/-- The below-range tier of _determine_status. -/
def lowVerdict (low high : PyNum) (value : ℚ) : String × String :=
  let deviation := (low.val - value) / low.val * 100
  if 30 < deviation then
    ("Critically Low", "Significantly below normal range " ++ rangeText low high ++
      " - Seek immediate medical attention")
  else if 15 < deviation then
    ("Low", "Below normal range " ++ rangeText low high ++ " - Discuss with your doctor")
  else
    ("Slightly Low", "Just below normal range " ++ rangeText low high ++
      " - Monitor and discuss if symptomatic")

/-- The above-range tier of _determine_status. -/
def highVerdict (low high : PyNum) (value : ℚ) : String × String :=
  let deviation := (value - high.val) / high.val * 100
  if 50 < deviation then
    ("Critically High", "Significantly above normal range " ++ rangeText low high ++
      " - Seek immediate medical attention")
  else if 25 < deviation then
    ("High", "Above normal range " ++ rangeText low high ++ " - Discuss with your doctor")
  else
    ("Slightly High", "Just above normal range " ++ rangeText low high ++
      " - Monitor and discuss if symptomatic")

/-- The comparison chain of _determine_status once bounds are known.
A zero divisor in the deviation raises ZeroDivisionError, which the
except clause of the source (ValueError, TypeError) does not catch. -/
def statusFromBounds (low high : PyNum) (value : ℚ) : Except String (String × String) :=
  if low.val ≤ value ∧ value ≤ high.val then
    .ok ("Normal", "Within normal range " ++ rangeText low high)
  else if value < low.val then
    if low.val = 0 then .error "float division by zero"
    else .ok (lowVerdict low high value)
  else
    if high.val = 0 then .error "float division by zero"
    else .ok (highVerdict low high value)

/-- _determine_status.  ValueError and TypeError are caught and yield
Review Needed; ZeroDivisionError propagates as an error value. -/
def determine_status (test_name value_str normal_range : String) :
    Except String (String × String) :=
  match pyFloat? value_str with
  | none =>
    .ok ("Review Needed", "Unable to interpret value - consult your healthcare provider")
  | some value_num =>
    match boundsFor (lowerStr test_name) normal_range with
    | .found low high => statusFromBounds low high value_num
    | .parseErr =>
      .ok ("Review Needed", "Unable to interpret value - consult your healthcare provider")
    | .noSource =>
      .ok ("Review Needed", "Please consult your healthcare provider for interpretation")

structure TermInfo where
  term : String
  description : String
deriving DecidableEq

/-- The static medical_terms table. -/
def medical_terms : List (String × TermInfo) :=
  [("hemoglobin", ⟨"Hemoglobin", "Protein in red blood cells that carries oxygen throughout your body"⟩),
   ("wbc", ⟨"White Blood Cells", "Cells that fight infection and diseases"⟩),
   ("rbc", ⟨"Red Blood Cells", "Cells that carry oxygen from your lungs to the rest of your body"⟩),
   ("platelets", ⟨"Platelets", "Tiny blood cells that help your body form clots to stop bleeding"⟩),
   ("hematocrit", ⟨"Hematocrit", "Percentage of red blood cells in your blood"⟩),
   ("mcv", ⟨"Mean Corpuscular Volume", "Average size of your red blood cells"⟩),
   ("glucose", ⟨"Blood Sugar", "Amount of sugar in your blood"⟩),
   ("creatinine", ⟨"Creatinine", "Waste product from muscle activity, filtered by kidneys"⟩),
   ("bun", ⟨"Blood Urea Nitrogen", "Measure of kidney function and protein metabolism"⟩),
   ("sodium", ⟨"Sodium", "Electrolyte that helps control fluid balance and nerve function"⟩),
   ("potassium", ⟨"Potassium", "Electrolyte important for heart and muscle function"⟩),
   ("chloride", ⟨"Chloride", "Electrolyte that helps maintain fluid balance"⟩),
   ("calcium", ⟨"Calcium", "Mineral essential for bones, teeth, and nerve function"⟩),
   ("egfr", ⟨"Estimated Glomerular Filtration Rate", "Measure of how well your kidneys are filtering waste"⟩),
   ("alt", ⟨"ALT (Liver Enzyme)", "Enzyme that indicates liver health and potential damage"⟩),
   ("ast", ⟨"AST (Liver Enzyme)", "Enzyme found in liver, heart, and muscles"⟩),
   ("alkaline phosphatase", ⟨"Alkaline Phosphatase", "Enzyme related to liver and bone health"⟩),
   ("bilirubin", ⟨"Bilirubin", "Substance produced when red blood cells break down"⟩),
   ("albumin", ⟨"Albumin", "Protein made by your liver that keeps fluid in your bloodstream"⟩),
   ("cholesterol", ⟨"Total Cholesterol", "Total amount of cholesterol in your blood"⟩),
   ("ldl", ⟨"LDL (Bad Cholesterol)", "Cholesterol that can build up in arteries"⟩),
   ("hdl", ⟨"HDL (Good Cholesterol)", "Cholesterol that helps remove bad cholesterol"⟩),
   ("triglycerides", ⟨"Triglycerides", "Type of fat stored in fat cells for energy"⟩),
   ("tsh", ⟨"TSH (Thyroid Stimulating Hormone)", "Hormone that controls thyroid function"⟩),
   ("t4", ⟨"Thyroxine (T4)", "Main hormone produced by thyroid gland"⟩),
   ("t3", ⟨"Triiodothyronine (T3)", "Active thyroid hormone"⟩),
   ("hba1c", ⟨"HbA1c (Average Blood Sugar)", "Average blood sugar level over past 3 months"⟩),
   ("vitamin d", ⟨"Vitamin D", "Vitamin important for bone health and immunity"⟩),
   ("iron", ⟨"Iron", "Mineral needed for red blood cell production"⟩),
   ("ferritin", ⟨"Ferritin", "Protein that stores iron in your body"⟩),
   ("psa", ⟨"PSA (Prostate Specific Antigen)", "Protein produced by prostate cells"⟩),
   ("inr", ⟨"INR (Blood Clotting)", "Measure of how long it takes blood to clot"⟩)]

def lookupTerm (key : String) : Option TermInfo :=
  (medical_terms.find? (fun p => p.1 == key)).map (fun p => p.2)

/-! The categorizer of _categorize_tests. -/

def blood_terms : List String := ["hemoglobin", "wbc", "rbc", "platelets", "hematocrit"]
def metabolic_terms : List String := ["glucose", "sodium", "potassium", "chloride", "calcium"]
def liver_terms : List String := ["alt", "ast", "bilirubin", "alkaline phosphatase", "albumin"]
def kidney_terms : List String := ["creatinine", "bun", "egfr"]
def lipid_terms : List String := ["cholesterol", "ldl", "hdl", "triglycerides"]
def thyroid_terms : List String := ["tsh", "t4", "t3"]

def hasTermIn (terms : List String) (test_lower : String) : Bool :=
  terms.any (fun term => containsSub term test_lower)

/-- The seven fixed category lists, in the insertion order of the source
dictionary. -/
structure Categories where
  blood : List TestResult
  metabolic : List TestResult
  liver : List TestResult
  kidney : List TestResult
  lipids : List TestResult
  thyroid : List TestResult
  other : List TestResult
deriving DecidableEq

def emptyCategories : Categories := ⟨[], [], [], [], [], [], []⟩

/-- The loop body of _categorize_tests: append the test to the first
category whose term list hits the lower cased test name, or to Other
Tests. -/
def catAdd (c : Categories) (t : TestResult) : Categories :=
  let tl := lowerStr t.test_name
  if hasTermIn blood_terms tl then { c with blood := c.blood ++ [t] }
  else if hasTermIn metabolic_terms tl then { c with metabolic := c.metabolic ++ [t] }
  else if hasTermIn liver_terms tl then { c with liver := c.liver ++ [t] }
  else if hasTermIn kidney_terms tl then { c with kidney := c.kidney ++ [t] }
  else if hasTermIn lipid_terms tl then { c with lipids := c.lipids ++ [t] }
  else if hasTermIn thyroid_terms tl then { c with thyroid := c.thyroid ++ [t] }
  else { c with other := c.other ++ [t] }

def categorize_tests (ts : List TestResult) : Categories :=
  ts.foldl catAdd emptyCategories

/-- The category a single test lands in, by the same first-match chain. -/
def categoryOf (t : TestResult) : String :=
  let tl := lowerStr t.test_name
  if hasTermIn blood_terms tl then "Blood Count"
  else if hasTermIn metabolic_terms tl then "Metabolic Panel"
  else if hasTermIn liver_terms tl then "Liver Function"
  else if hasTermIn kidney_terms tl then "Kidney Function"
  else if hasTermIn lipid_terms tl then "Lipids (Cholesterol)"
  else if hasTermIn thyroid_terms tl then "Thyroid Function"
  else "Other Tests"

def sevenCategoryNames : List String :=
  ["Blood Count", "Metabolic Panel", "Liver Function", "Kidney Function",
   "Lipids (Cholesterol)", "Thyroid Function", "Other Tests"]

/-- The categories as the ordered name-to-list pairs of the source
dictionary. -/
def Categories.toPairs (c : Categories) : List (String × List TestResult) :=
  [("Blood Count", c.blood), ("Metabolic Panel", c.metabolic),
   ("Liver Function", c.liver), ("Kidney Function", c.kidney),
   ("Lipids (Cholesterol)", c.lipids), ("Thyroid Function", c.thyroid),
   ("Other Tests", c.other)]

/-- _get_status_emoji, with its default glyph. -/
def get_status_emoji (status : String) : String :=
  if status = "Normal" then "✅"
  else if status = "Slightly Low" then "⚠️"
  else if status = "Slightly High" then "⚠️"
  else if status = "Low" then "🔻"
  else if status = "High" then "🔺"
  else if status = "Critically Low" then "🚨"
  else if status = "Critically High" then "🚨"
  else if status = "Review Needed" then "❓"
  else "📋"

def repChar (c : Char) (n : Nat) : String := ⟨List.replicate n c⟩

/-- The per-test block of the formatter.  An uncaught exception from
_determine_status propagates. -/
def formatTest (t : TestResult) : Except String (List String) :=
  let ti := lookupTerm (lowerStr t.test_name)
  let display_name := match ti with | some i => i.term | none => t.test_name
  let description := match ti with | some i => i.description | none => "Medical measurement"
  match determine_status t.test_name t.value t.normal_range with
  | .error e => .error e
  | .ok (status, explanation) =>
    .ok [get_status_emoji status ++ " " ++ display_name ++ ": " ++ t.value ++ " " ++ t.units,
         "   Status: " ++ status,
         "   What it means: " ++ description,
         "   Note: " ++ explanation,
         ""]

def formatTests : List TestResult → Except String (List String)
  | [] => .ok []
  | t :: ts =>
    match formatTest t, formatTests ts with
    | .error e, _ => .error e
    | .ok _, .error e => .error e
    | .ok a, .ok b => .ok (a ++ b)

/-- One category section of the formatter; empty categories are skipped. -/
def formatCategory (p : String × List TestResult) : Except String (List String) :=
  match p.2 with
  | [] => .ok []
  | _ =>
    match formatTests p.2 with
    | .error e => .error e
    | .ok body => .ok ([upperStr p.1, repChar '-' 30] ++ body)

def formatCategories : List (String × List TestResult) → Except String (List String)
  | [] => .ok []
  | p :: ps =>
    match formatCategory p, formatCategories ps with
    | .error e, _ => .error e
    | .ok _, .error e => .error e
    | .ok a, .ok b => .ok (a ++ b)

/-- simplify_medical_report.  The analysis date line prints the wall
clock, threaded here as the parameter now. -/
def simplify_medical_report (now : String) (text : String) : Except String String :=
  let report_type := detect_report_type text
  let test_results := extract_test_results text
  let header := ["MEDICAL REPORT SIMPLIFICATION", repChar '=' 50,
                 "Report Type: " ++ pyReplace (upperStr report_type) "_" " ",
                 "Analysis Date: " ++ now, ""]
  if test_results.isEmpty then
    .ok (String.intercalate "\n" (header ++
      ["No structured test results found in the report.",
       "Please ensure your report contains values with normal ranges."]))
  else
    match formatCategories (categorize_tests test_results).toPairs with
    | .error e => .error e
    | .ok body => .ok (String.intercalate "\n" (header ++ body))

/-- generate_recommendations: fixed general advice, then blocks keyed by
substring checks against the already formatted text and the report type,
then the fixed disclaimer. -/
def generate_recommendations (simplified_text : String) (report_type : String) : String :=
  let base := ["HEALTH RECOMMENDATIONS", repChar '=' 30, "", "General Advice:",
    "• Share these results with your healthcare provider",
    "• Discuss any symptoms or concerns with your doctor",
    "• Follow up as recommended by your healthcare team",
    "• Maintain regular health check-ups", ""]
  let urgent := if containsSub "Critically" simplified_text then
      ["🚨 URGENT RECOMMENDATIONS:",
       "• Seek immediate medical attention if you have symptoms",
       "• Contact your healthcare provider today",
       "• Do not ignore these critical results", ""] else []
  let followup := if containsSub "High" simplified_text || containsSub "Low" simplified_text then
      ["Important Next Steps:",
       "• Schedule a follow-up appointment with your doctor",
       "• Discuss potential causes and treatment options",
       "• Consider lifestyle modifications if appropriate", ""] else []
  let sugar := if report_type = "diabetes" || containsSub "glucose" (lowerStr simplified_text) then
      ["Blood Sugar Management:",
       "• Monitor blood glucose levels regularly",
       "• Follow a balanced diet with controlled carbohydrates",
       "• Engage in regular physical activity",
       "• Maintain a healthy weight", ""] else []
  let heart := if report_type = "cardiac" || containsSub "cholesterol" (lowerStr simplified_text) ||
      containsSub "ldl" (lowerStr simplified_text) then
      ["Heart Health:",
       "• Follow a heart-healthy diet (Mediterranean style)",
       "• Exercise regularly (30 minutes most days)",
       "• Manage stress through relaxation techniques",
       "• Avoid smoking and limit alcohol", ""] else []
  let kidneyBlock := if containsSub "kidney" report_type ||
      containsSub "creatinine" (lowerStr simplified_text) ||
      containsSub "egfr" (lowerStr simplified_text) then
      ["Kidney Health:",
       "• Stay well-hydrated with water",
       "• Monitor blood pressure regularly",
       "• Limit salt intake",
       "• Review medications with your doctor", ""] else []
  let disclaimer := ["", "Important Disclaimer:",
    "• This analysis is for informational purposes only",
    "• Always consult qualified healthcare providers for medical advice",
    "• Do not make treatment decisions based solely on this information"]
  String.intercalate "\n"
    (base ++ urgent ++ followup ++ sugar ++ heart ++ kidneyBlock ++ disclaimer)

/-- The success payload of process_report.  The processing time and the
timestamp read the wall clock and are threaded as parameters. -/
structure SuccessRecord where
  original_text : String
  simplified_text : String
  recommendations : String
  report_type : String
  tests_found : Nat
  processing_time : String
  character_count : Nat
  timestamp : String
deriving DecidableEq, Repr

/-- A process_report response: an error payload carrying a message and
status error, or a success payload with status success. -/
inductive Payload where
  | err (msg : String)
  | success (r : SuccessRecord)
deriving DecidableEq, Repr

def Payload.statusStr : Payload → String
  | .err _ => "error"
  | .success _ => "success"

def Payload.isSuccessB : Payload → Bool
  | .err _ => false
  | .success _ => true

def payloadOriginalText : Payload → Option String
  | .err _ => none
  | .success r => some r.original_text

/-- The success payload assembly of process_report (the local Python
variables cleaned_text, report_type, recommendations and test_results
are inlined). -/
def buildSuccess (now ptime cleaned_text simplified_text : String) : SuccessRecord :=
  { original_text :=
      if 1000 < strLen cleaned_text then strTake cleaned_text 1000 ++ "..."
      else cleaned_text
    simplified_text := simplified_text
    recommendations :=
      generate_recommendations simplified_text (detect_report_type cleaned_text)
    report_type := detect_report_type cleaned_text
    tests_found := (extract_test_results cleaned_text).length
    processing_time := ptime
    character_count := strLen cleaned_text
    timestamp := now }

/-- process_report on obtained raw text (the direct text path and the
file path agree from this point on).  The try block is the Except
plumbing: the only uncaught exception source in the pipeline is
_determine_status inside the formatter, and the outer handler converts
it to the error payload with the exception message. -/
def process_report (now ptime : String) (raw_text : String) : Payload :=
  if pyStrip raw_text = "" then
    .err "No readable text content found. Please provide a file with text or text content directly."
  else
    match simplify_medical_report now (preprocess_text raw_text) with
    | .error e => .err ("Error processing report: " ++ e)
    | .ok simplified_text =>
      .success (buildSuccess now ptime (preprocess_text raw_text) simplified_text)

/-! The file text extractor. -/

/-- Outcome of an external read (file system, PDF library, OCR engine):
the produced text, or an exception with its message. -/
inductive ReadOutcome where
  | ok (text : String)
  | exn (msg : String)
deriving DecidableEq

/-- _extract_text_from_pdf: page texts joined by the library, any
exception degraded to the fixed fallback string. -/
def extract_text_from_pdf (pdfRead : ReadOutcome) : String :=
  match pdfRead with
  | .ok t => t
  | .exn _ => "PDF content extraction failed. Please upload as text file."

/-- _extract_text_from_image: OCR text, any exception degraded to the
fixed fallback string. -/
def extract_text_from_image (imgRead : ReadOutcome) : String :=
  match imgRead with
  | .ok t => t
  | .exn _ => "Image text extraction failed. Please ensure image is clear and well-lit."

def strStartsWith (s pre : String) : Bool := pre.data.isPrefixOf s.data

/-- The try body of extract_text_from_file: dispatch on the declared
content type. -/
def extractTextCore (file_type : String) (plainRead pdfRead imgRead : ReadOutcome) :
    Except String String :=
  if file_type = "text/plain" then
    match plainRead with
    | .ok t => .ok t
    | .exn e => .error e
  else if file_type = "application/pdf" then .ok (extract_text_from_pdf pdfRead)
  else if strStartsWith file_type "image/" then .ok (extract_text_from_image imgRead)
  else .ok ("File type " ++ file_type ++
    " detected. Please provide text content directly for best results.")

/-- extract_text_from_file: the outer handler degrades any exception to
the empty string. -/
def extract_text_from_file (file_type : String) (plainRead pdfRead imgRead : ReadOutcome) :
    String :=
  match extractTextCore file_type plainRead pdfRead imgRead with
  | .ok t => t
  | .error _ => ""


/-! Helper lemmas for the preprocessor and substring infrastructure. -/

theorem mem_replaceAux (old new : List Char) :
    ∀ (fuel : Nat) (s : List Char) (x : Char),
      x ∈ replaceAux old new fuel s → x ∈ s ∨ x ∈ new := by
  intro fuel
  induction fuel with
  | zero =>
    intro s x hx
    cases s with
    | nil => simp [replaceAux] at hx
    | cons c cs => exact Or.inl (by simpa [replaceAux] using hx)
  | succ fuel ih =>
    intro s x hx
    cases s with
    | nil => simp [replaceAux] at hx
    | cons c cs =>
      rw [replaceAux] at hx
      by_cases h : old.isPrefixOf (c :: cs) = true
      · rw [if_pos h] at hx
        rcases List.mem_append.1 hx with h1 | h1
        · exact Or.inr h1
        · rcases ih _ _ h1 with h2 | h2
          · exact Or.inl (List.mem_cons_of_mem _ (List.mem_of_mem_drop h2))
          · exact Or.inr h2
      · rw [if_neg h] at hx
        rcases List.mem_cons.1 hx with h1 | h1
        · exact Or.inl (h1 ▸ List.mem_cons_self _ _)
        · rcases ih _ _ h1 with h2 | h2
          · exact Or.inl (List.mem_cons_of_mem _ h2)
          · exact Or.inr h2

theorem replaceAux_single_ne (a : Char) (new : List Char)
    (hnew : ∀ y ∈ new, y ≠ a) :
    ∀ (fuel : Nat) (s : List Char), s.length ≤ fuel →
      ∀ x ∈ replaceAux [a] new fuel s, x ≠ a := by
  intro fuel
  induction fuel with
  | zero =>
    intro s hs x hx
    have hnil : s = [] := List.eq_nil_of_length_eq_zero (Nat.le_zero.1 hs)
    subst hnil
    simp [replaceAux] at hx
  | succ fuel ih =>
    intro s hs x hx
    cases s with
    | nil => simp [replaceAux] at hx
    | cons c cs =>
      rw [replaceAux] at hx
      by_cases h : [a].isPrefixOf (c :: cs) = true
      · rw [if_pos h] at hx
        rcases List.mem_append.1 hx with h1 | h1
        · exact hnew x h1
        · have hlen : cs.length ≤ fuel := by
            simpa using Nat.succ_le_succ_iff.1 hs
          have h2 : x ∈ replaceAux [a] new fuel cs := by
            simpa using h1
          exact ih cs hlen x h2
      · rw [if_neg h] at hx
        rcases List.mem_cons.1 hx with h1 | h1
        · subst h1
          intro hxa
          apply h
          simp [List.isPrefixOf, hxa]
        · have hlen : cs.length ≤ fuel := by
            simpa using Nat.succ_le_succ_iff.1 hs
          exact ih cs hlen x h1

theorem mem_stripL (l : List Char) (x : Char) (hx : x ∈ stripL l) : x ∈ l := by
  simp only [stripL, List.mem_reverse] at hx
  have h2 : x ∈ (l.dropWhile isPySpace).reverse := (List.dropWhile_sublist _).subset hx
  rw [List.mem_reverse] at h2
  exact (List.dropWhile_sublist _).subset h2

theorem mem_of_isPrefixOf :
    ∀ (a b : List Char), a.isPrefixOf b = true → ∀ x ∈ a, x ∈ b := by
  intro a
  induction a with
  | nil =>
    intro b _ x hx
    simp at hx
  | cons c cs ih =>
    intro b h x hx
    cases b with
    | nil => simp [List.isPrefixOf] at h
    | cons d ds =>
      simp only [List.isPrefixOf, Bool.and_eq_true, beq_iff_eq] at h
      rcases List.mem_cons.1 hx with h1 | h1
      · subst h1
        rw [h.1]
        exact List.mem_cons_self _ _
      · exact List.mem_cons_of_mem _ (ih ds h.2 x h1)

theorem containsSub_mem (needle hay : String)
    (h : containsSub needle hay = true) :
    ∀ x ∈ needle.data, x ∈ hay.data := by
  intro x hx
  unfold containsSub at h
  rcases List.any_eq_true.1 h with ⟨i, _, hpre⟩
  exact List.mem_of_mem_drop (mem_of_isPrefixOf _ _ hpre x hx)

theorem applyCorrection_single_ne (a : Char) (o n : String) (ho : o.data = [a])
    (hn : ∀ y ∈ n.data, y ≠ a) (u : List Char) :
    ∀ x ∈ applyCorrection u (o, n), x ≠ a := by
  intro x hx
  unfold applyCorrection at hx
  rw [ho] at hx
  exact replaceAux_single_ne a n.data hn u.length u (le_refl _) x hx

theorem applyCorrection_preserve_ne (c : Char) (p : String × String)
    (hnew : ∀ y ∈ p.2.data, y ≠ c) (u : List Char) (hu : ∀ x ∈ u, x ≠ c) :
    ∀ x ∈ applyCorrection u p, x ≠ c := by
  intro x hx
  unfold applyCorrection at hx
  rcases mem_replaceAux _ _ _ _ _ hx with h | h
  · exact hu x h
  · exact hnew x h

/-- After the full correction chain no confusable character remains. -/
theorem chain_clean (t0 : List Char) :
    ∀ x ∈ corrections.foldl applyCorrection t0,
      x ≠ 'l' ∧ x ≠ 'o' ∧ x ≠ 'O' ∧ x ≠ '|' := by
  intro x hx
  have e : corrections.foldl applyCorrection t0 =
      applyCorrection (applyCorrection (applyCorrection (applyCorrection
        (applyCorrection t0 ("rn", "m")) ("l", "1")) ("O", "0")) ("o", "0")) ("|", "1") := rfl
  rw [e] at hx
  refine ⟨?_, ?_, ?_, ?_⟩
  · exact applyCorrection_preserve_ne 'l' ("|", "1") (by decide) _
      (applyCorrection_preserve_ne 'l' ("o", "0") (by decide) _
        (applyCorrection_preserve_ne 'l' ("O", "0") (by decide) _
          (applyCorrection_single_ne 'l' "l" "1" rfl (by decide) _))) x hx
  · exact applyCorrection_preserve_ne 'o' ("|", "1") (by decide) _
      (applyCorrection_single_ne 'o' "o" "0" rfl (by decide) _) x hx
  · exact applyCorrection_preserve_ne 'O' ("|", "1") (by decide) _
      (applyCorrection_preserve_ne 'O' ("o", "0") (by decide) _
        (applyCorrection_single_ne 'O' "O" "0" rfl (by decide) _)) x hx
  · exact applyCorrection_single_ne '|' "|" "1" rfl (by decide) _ x hx

/-- Claim C7: for every input string, the output of preprocess_text
contains no occurrence of the characters l, o, O or the vertical bar
(each is replaced by a digit after the rn to m substitution and no later
substitution reintroduces them); consequently no keyword containing one
of those characters, such as cholesterol, glucose or liver, can be found
in preprocessed text by a downstream substring check. -/
theorem C7_preprocess_confusables :
    ∀ s : String,
      ('l' ∉ (preprocess_text s).data ∧ 'o' ∉ (preprocess_text s).data ∧
       'O' ∉ (preprocess_text s).data ∧ '|' ∉ (preprocess_text s).data) ∧
      ∀ kw : String,
        ('l' ∈ kw.data ∨ 'o' ∈ kw.data ∨ 'O' ∈ kw.data ∨ '|' ∈ kw.data) →
        containsSub kw (preprocess_text s) = false := by
  intro s
  have hin : ∀ x ∈ (preprocess_text s).data,
      x ≠ 'l' ∧ x ≠ 'o' ∧ x ≠ 'O' ∧ x ≠ '|' := by
    intro x hx
    have hx2 : x ∈ stripL (corrections.foldl applyCorrection (collapseWs s.data)) := hx
    exact chain_clean _ x (mem_stripL _ x hx2)
  refine ⟨⟨fun h => (hin 'l' h).1 rfl, fun h => (hin 'o' h).2.1 rfl,
          fun h => (hin 'O' h).2.2.1 rfl, fun h => (hin '|' h).2.2.2 rfl⟩, ?_⟩
  intro kw hkw
  cases hc : containsSub kw (preprocess_text s) with
  | false => rfl
  | true =>
    exfalso
    have hmem := containsSub_mem kw _ hc
    rcases hkw with h | h | h | h
    · exact (hin 'l' (hmem 'l' h)).1 rfl
    · exact (hin 'o' (hmem 'o' h)).2.1 rfl
    · exact (hin 'O' (hmem 'O' h)).2.2.1 rfl
    · exact (hin '|' (hmem '|' h)).2.2.2 rfl

/-- Witness for C7 at concrete keywords containing the replaced
characters. -/
theorem C7_witness :
    containsSub "cholesterol" (preprocess_text "cholesterol") = false ∧
    containsSub "glucose" (preprocess_text "glucose test") = false ∧
    containsSub "liver" (preprocess_text "liver panel") = false :=
  ⟨(C7_preprocess_confusables "cholesterol").2 "cholesterol" (Or.inl (by decide)),
   (C7_preprocess_confusables "glucose test").2 "glucose" (Or.inl (by decide)),
   (C7_preprocess_confusables "liver panel").2 "liver" (Or.inl (by decide))⟩

/-- Claim C4: report type detection is a deterministic function testing
the category keyword sets in the fixed priority order diabetes, cardiac,
blood work, thyroid, liver, kidney, returning the first category with a
keyword present in the lower cased text and general when none hit; in
particular every input whose lower cased text contains both hba1c and
cholesterol is classified diabetes, never cardiac. -/
theorem C4_report_type_detection :
    (∀ text : String, detect_report_type text = detectReportTypeSpec text) ∧
    (∀ text : String,
      containsSub "hba1c" (lowerStr text) = true →
      containsSub "cholesterol" (lowerStr text) = true →
      detect_report_type text = "diabetes") := by
  constructor
  · intro text
    rfl
  · intro text h1 _
    unfold detect_report_type
    simp [h1]

/-- Witness for C4 at a text containing both hba1c and cholesterol. -/
theorem C4_witness : detect_report_type "hba1c and cholesterol" = "diabetes" :=
  C4_report_type_detection.2 "hba1c and cholesterol" (by decide) (by decide)

/-- Claim C2: on the input Glucose: 130 mg/dL (70-100) the extractor
yields exactly one TestResult with name Glucose, value 130, units mg/dL
and a normal range equivalent to 70-100 (the stored string is 70 100
because the range cleanup substitutes a space for the hyphen, but it
yields the same numeric tokens, hence the same bounds); the classifier
on that TestResult yields High with a message referencing the range
(70.0-100.0). -/
theorem C2_roundtrip :
    extract_test_results "Glucose: 130 mg/dL (70-100)" =
      [{ test_name := "Glucose", value := "130", units := "mg/dL",
         normal_range := "70 100" }] ∧
    numTokens "70 100" = ["70", "100"] ∧
    numTokens "70 100" = numTokens "70-100" ∧
    determine_status "Glucose" "130" "70 100" =
      .ok ("High", "Above normal range (70.0-100.0) - Discuss with your doctor") :=
  ⟨rfl, rfl, rfl, rfl⟩

/-- Counterexample to claim C8 as stated: the units cleanup keeps the
slash (a non alphanumeric character), and the range cleanup does not
strip characters outside the digit, dot, dash, en dash set, it
substitutes spaces, and it substitutes the plain hyphen as well, because
the unescaped dash inside the substitution class forms the codepoint
range dot to en dash, which excludes the hyphen and includes all
letters.  So the extracted Sodium row keeps units mmol/L and turns range
135-145 into 135 145, while the claim predicts units mmolL and range
135-145 unchanged. -/
theorem C8_counterexample :
    extract_test_results "Sodium: 140 mmol/L (135-145)" =
      [{ test_name := "Sodium", value := "140", units := "mmol/L",
         normal_range := "135 145" }] ∧
    ('/' ∈ "mmol/L".data ∧ '/'.isAlphanum = false) ∧
    "135 145" ≠ "135-145" :=
  ⟨rfl, ⟨by decide, by decide⟩, by decide⟩

/-- Claim C8 amended: every TestResult emitted by the extractor has a
units field containing only alphanumerics, underscore, slash and
percent (the non kept characters are removed), and a normal_range field
containing only digits, characters with codepoint between dot (U+002E)
and en dash (U+2013) inclusive, and spaces (each character outside
digits and that codepoint interval is replaced by a space). -/
theorem C8_amended :
    ∀ (text : String) (r : TestResult) (c : Char),
      r ∈ extract_test_results text →
      (c ∈ r.units.data → (c.isAlphanum = true ∨ c = '_' ∨ c = '/' ∨ c = '%')) ∧
      (c ∈ r.normal_range.data →
        (c.isDigit = true ∨ ('.'.toNat ≤ c.toNat ∧ c.toNat ≤ 0x2013) ∨ c = ' ')) := by
  intro text r c hr
  rcases List.mem_map.1 hr with ⟨caps, _, hcaps⟩
  subst hcaps
  constructor
  · intro hc
    have hc2 : c ∈ (pyStrip ⟨capGet caps 3⟩).data.filter
        (fun c => isWordChar c || c == '/' || c == '%') := hc
    have h2 := (List.mem_filter.1 hc2).2
    simp only [isWordChar, Bool.or_eq_true, beq_iff_eq] at h2
    tauto
  · intro hc
    have hc2 : c ∈ (pyStrip ⟨capGet caps 4⟩).data.map
        (fun c => if inRangeClass c then c else ' ') := hc
    rcases List.mem_map.1 hc2 with ⟨d, _, hd⟩
    by_cases h : inRangeClass d = true
    · rw [if_pos h] at hd
      subst hd
      simp only [inRangeClass, Bool.or_eq_true, Bool.and_eq_true,
        decide_eq_true_eq] at h
      rcases h with h | h
      · exact Or.inl h
      · exact Or.inr (Or.inl h)
    · rw [if_neg h] at hd
      exact Or.inr (Or.inr hd.symm)

/-- Witness for C8 amended, at the slash of the Sodium units and the
space of its cleaned range. -/
theorem C8_witness :
    (('/'.isAlphanum = true ∨ '/' = '_' ∨ '/' = '/' ∨ '/' = '%') ∧
     (' '.isDigit = true ∨ ('.'.toNat ≤ ' '.toNat ∧ ' '.toNat ≤ 0x2013) ∨ ' ' = ' ')) :=
  ⟨(C8_amended "Sodium: 140 mmol/L (135-145)"
      { test_name := "Sodium", value := "140", units := "mmol/L",
        normal_range := "135 145" } '/' (by decide)).1 (by decide),
   (C8_amended "Sodium: 140 mmol/L (135-145)"
      { test_name := "Sodium", value := "140", units := "mmol/L",
        normal_range := "135 145" } ' ' (by decide)).2 (by decide)⟩

/-- Claim C3: whenever the value string does not parse as a float, the
classifier returns Review Needed with the fixed advisory message,
independently of test name and range string. -/
theorem C3_unparsable_value (test_name normal_range value_str : String)
    (h : pyFloat? value_str = none) :
    determine_status test_name value_str normal_range =
      .ok ("Review Needed", "Unable to interpret value - consult your healthcare provider") := by
  unfold determine_status
  rw [h]

/-- Witness for C3 at the value abc. -/
theorem C3_witness :
    determine_status "Test" "abc" "1-2" =
      .ok ("Review Needed", "Unable to interpret value - consult your healthcare provider") :=
  C3_unparsable_value "Test" "1-2" "abc" rfl

theorem lowVerdict_fst (low high : PyNum) (value : ℚ) :
    (lowVerdict low high value).1 = "Critically Low" ∨
    (lowVerdict low high value).1 = "Low" ∨
    (lowVerdict low high value).1 = "Slightly Low" := by
  unfold lowVerdict
  by_cases h1 : 30 < (low.val - value) / low.val * 100
  · simp [h1]
  · by_cases h2 : 15 < (low.val - value) / low.val * 100 <;> simp [h1, h2]

theorem highVerdict_fst (low high : PyNum) (value : ℚ) :
    (highVerdict low high value).1 = "Critically High" ∨
    (highVerdict low high value).1 = "High" ∨
    (highVerdict low high value).1 = "Slightly High" := by
  unfold highVerdict
  by_cases h1 : 50 < (value - high.val) / high.val * 100
  · simp [h1]
  · by_cases h2 : 25 < (value - high.val) / high.val * 100 <;> simp [h1, h2]

/-- Claim C1, amended: with a parsed value and bounds obtained from the
range tokens or the table, the classifier returns Normal exactly when
low le value le high; when value is below low it returns the deviation
tier of the claim provided low is nonzero, and raises an uncaught
ZeroDivisionError when low is zero; when value is above high (and not
below low) it returns the high deviation tier provided high is nonzero,
and raises when high is zero.  The last two conjuncts spell out that the
tiers follow exactly the thresholds of the claim (30/15 below, 50/25
above). -/
theorem C1_amended (test_name value_str normal_range : String)
    (low high : PyNum) (value : ℚ)
    (hv : pyFloat? value_str = some value)
    (hb : boundsFor (lowerStr test_name) normal_range = .found low high) :
    (determine_status test_name value_str normal_range =
        .ok ("Normal", "Within normal range " ++ rangeText low high) ↔
      (low.val ≤ value ∧ value ≤ high.val)) ∧
    (value < low.val → low.val ≠ 0 →
      determine_status test_name value_str normal_range = .ok (lowVerdict low high value)) ∧
    (value < low.val → low.val = 0 →
      determine_status test_name value_str normal_range = .error "float division by zero") ∧
    (low.val ≤ value → high.val < value → high.val ≠ 0 →
      determine_status test_name value_str normal_range = .ok (highVerdict low high value)) ∧
    (low.val ≤ value → high.val < value → high.val = 0 →
      determine_status test_name value_str normal_range = .error "float division by zero") ∧
    ((lowVerdict low high value).1 =
      if 30 < (low.val - value) / low.val * 100 then "Critically Low"
      else if 15 < (low.val - value) / low.val * 100 then "Low" else "Slightly Low") ∧
    ((highVerdict low high value).1 =
      if 50 < (value - high.val) / high.val * 100 then "Critically High"
      else if 25 < (value - high.val) / high.val * 100 then "High" else "Slightly High") := by
  have e : determine_status test_name value_str normal_range =
      statusFromBounds low high value := by
    unfold determine_status
    rw [hv, hb]
  rw [e]
  unfold statusFromBounds
  refine ⟨?_, ?_, ?_, ?_, ?_, ?_, ?_⟩
  · constructor
    · intro h
      by_cases hc : low.val ≤ value ∧ value ≤ high.val
      · exact hc
      · exfalso
        rw [if_neg hc] at h
        by_cases h2 : value < low.val
        · rw [if_pos h2] at h
          by_cases h3 : low.val = 0
          · rw [if_pos h3] at h
            exact Except.noConfusion h
          · rw [if_neg h3] at h
            have h4 : (lowVerdict low high value).1 = "Normal" := by
              rw [Except.ok.inj h]
            rcases lowVerdict_fst low high value with h5 | h5 | h5 <;>
              rw [h5] at h4 <;> exact absurd h4 (by decide)
        · rw [if_neg h2] at h
          by_cases h3 : high.val = 0
          · rw [if_pos h3] at h
            exact Except.noConfusion h
          · rw [if_neg h3] at h
            have h4 : (highVerdict low high value).1 = "Normal" := by
              rw [Except.ok.inj h]
            rcases highVerdict_fst low high value with h5 | h5 | h5 <;>
              rw [h5] at h4 <;> exact absurd h4 (by decide)
    · intro hc
      rw [if_pos hc]
  · intro h1 h2
    rw [if_neg (fun hc => absurd h1 (not_lt.2 hc.1)), if_pos h1, if_neg h2]
  · intro h1 h2
    rw [if_neg (fun hc => absurd h1 (not_lt.2 hc.1)), if_pos h1, if_pos h2]
  · intro h1 h2 h3
    rw [if_neg (fun hc => absurd h2 (not_lt.2 hc.2)), if_neg (not_lt.2 h1), if_neg h3]
  · intro h1 h2 h3
    rw [if_neg (fun hc => absurd h2 (not_lt.2 hc.2)), if_neg (not_lt.2 h1), if_pos h3]
  · unfold lowVerdict
    by_cases h1 : 30 < (low.val - value) / low.val * 100
    · simp [h1]
    · by_cases h2 : 15 < (low.val - value) / low.val * 100 <;> simp [h1, h2]
  · unfold highVerdict
    by_cases h1 : 50 < (value - high.val) / high.val * 100
    · simp [h1]
    · by_cases h2 : 25 < (value - high.val) / high.val * 100 <;> simp [h1, h2]

/-- Counterexample to claim C1 as stated: with the table bounds of ldl
(low 0, high 100) and the parseable value -5 the classifier raises an
uncaught ZeroDivisionError instead of returning a low tier label; and
with bounds (100, 70) taken from the first two numeric tokens of 100-70
the value 80 exceeds high yet the classifier returns Low, not a high
tier label. -/
theorem C1_counterexample :
    boundsFor (lowerStr "ldl") "" = .found (.int 0) (.int 100) ∧
    pyFloat? "-5" = some (-5) ∧
    determine_status "ldl" "-5" "" = .error "float division by zero" ∧
    boundsFor (lowerStr "x") "100-70" = .found (.float 100) (.float 70) ∧
    ((70 : ℚ) < 80) ∧
    determine_status "x" "80" "100-70" =
      .ok ("Low", "Below normal range (100.0-70.0) - Discuss with your doctor") :=
  ⟨rfl, by decide, rfl, by decide, by norm_num, rfl⟩

/-- Witness for C1 amended: glucose value 50 against the table bounds
(70, 100). -/
theorem C1_witness :
    determine_status "glucose" "50" "" = .ok (lowVerdict (.int 70) (.int 100) 50) ∧
    (50 : ℚ) < (PyNum.int 70).val ∧ (PyNum.int 70).val ≠ 0 := by
  have h := (C1_amended "glucose" "50" "" (.int 70) (.int 100) 50 (by decide) (by decide)).2.1
  refine ⟨h ?_ ?_, ?_, ?_⟩
  · show (50 : ℚ) < 70
    norm_num
  · show (70 : ℚ) ≠ 0
    norm_num
  · show (50 : ℚ) < 70
    norm_num
  · show (70 : ℚ) ≠ 0
    norm_num

/-! The categorizer claims. -/

theorem catAdd_field_blood (c : Categories) (t : TestResult) :
    (catAdd c t).blood =
      if categoryOf t = "Blood Count" then c.blood ++ [t] else c.blood := by
  unfold catAdd categoryOf
  by_cases h1 : hasTermIn blood_terms (lowerStr t.test_name) = true <;>
  by_cases h2 : hasTermIn metabolic_terms (lowerStr t.test_name) = true <;>
  by_cases h3 : hasTermIn liver_terms (lowerStr t.test_name) = true <;>
  by_cases h4 : hasTermIn kidney_terms (lowerStr t.test_name) = true <;>
  by_cases h5 : hasTermIn lipid_terms (lowerStr t.test_name) = true <;>
  by_cases h6 : hasTermIn thyroid_terms (lowerStr t.test_name) = true <;>
  simp [h1, h2, h3, h4, h5, h6]

theorem catAdd_field_metabolic (c : Categories) (t : TestResult) :
    (catAdd c t).metabolic =
      if categoryOf t = "Metabolic Panel" then c.metabolic ++ [t] else c.metabolic := by
  unfold catAdd categoryOf
  by_cases h1 : hasTermIn blood_terms (lowerStr t.test_name) = true <;>
  by_cases h2 : hasTermIn metabolic_terms (lowerStr t.test_name) = true <;>
  by_cases h3 : hasTermIn liver_terms (lowerStr t.test_name) = true <;>
  by_cases h4 : hasTermIn kidney_terms (lowerStr t.test_name) = true <;>
  by_cases h5 : hasTermIn lipid_terms (lowerStr t.test_name) = true <;>
  by_cases h6 : hasTermIn thyroid_terms (lowerStr t.test_name) = true <;>
  simp [h1, h2, h3, h4, h5, h6]

theorem catAdd_field_liver (c : Categories) (t : TestResult) :
    (catAdd c t).liver =
      if categoryOf t = "Liver Function" then c.liver ++ [t] else c.liver := by
  unfold catAdd categoryOf
  by_cases h1 : hasTermIn blood_terms (lowerStr t.test_name) = true <;>
  by_cases h2 : hasTermIn metabolic_terms (lowerStr t.test_name) = true <;>
  by_cases h3 : hasTermIn liver_terms (lowerStr t.test_name) = true <;>
  by_cases h4 : hasTermIn kidney_terms (lowerStr t.test_name) = true <;>
  by_cases h5 : hasTermIn lipid_terms (lowerStr t.test_name) = true <;>
  by_cases h6 : hasTermIn thyroid_terms (lowerStr t.test_name) = true <;>
  simp [h1, h2, h3, h4, h5, h6]

theorem catAdd_field_kidney (c : Categories) (t : TestResult) :
    (catAdd c t).kidney =
      if categoryOf t = "Kidney Function" then c.kidney ++ [t] else c.kidney := by
  unfold catAdd categoryOf
  by_cases h1 : hasTermIn blood_terms (lowerStr t.test_name) = true <;>
  by_cases h2 : hasTermIn metabolic_terms (lowerStr t.test_name) = true <;>
  by_cases h3 : hasTermIn liver_terms (lowerStr t.test_name) = true <;>
  by_cases h4 : hasTermIn kidney_terms (lowerStr t.test_name) = true <;>
  by_cases h5 : hasTermIn lipid_terms (lowerStr t.test_name) = true <;>
  by_cases h6 : hasTermIn thyroid_terms (lowerStr t.test_name) = true <;>
  simp [h1, h2, h3, h4, h5, h6]

theorem catAdd_field_lipids (c : Categories) (t : TestResult) :
    (catAdd c t).lipids =
      if categoryOf t = "Lipids (Cholesterol)" then c.lipids ++ [t] else c.lipids := by
  unfold catAdd categoryOf
  by_cases h1 : hasTermIn blood_terms (lowerStr t.test_name) = true <;>
  by_cases h2 : hasTermIn metabolic_terms (lowerStr t.test_name) = true <;>
  by_cases h3 : hasTermIn liver_terms (lowerStr t.test_name) = true <;>
  by_cases h4 : hasTermIn kidney_terms (lowerStr t.test_name) = true <;>
  by_cases h5 : hasTermIn lipid_terms (lowerStr t.test_name) = true <;>
  by_cases h6 : hasTermIn thyroid_terms (lowerStr t.test_name) = true <;>
  simp [h1, h2, h3, h4, h5, h6]

theorem catAdd_field_thyroid (c : Categories) (t : TestResult) :
    (catAdd c t).thyroid =
      if categoryOf t = "Thyroid Function" then c.thyroid ++ [t] else c.thyroid := by
  unfold catAdd categoryOf
  by_cases h1 : hasTermIn blood_terms (lowerStr t.test_name) = true <;>
  by_cases h2 : hasTermIn metabolic_terms (lowerStr t.test_name) = true <;>
  by_cases h3 : hasTermIn liver_terms (lowerStr t.test_name) = true <;>
  by_cases h4 : hasTermIn kidney_terms (lowerStr t.test_name) = true <;>
  by_cases h5 : hasTermIn lipid_terms (lowerStr t.test_name) = true <;>
  by_cases h6 : hasTermIn thyroid_terms (lowerStr t.test_name) = true <;>
  simp [h1, h2, h3, h4, h5, h6]

theorem catAdd_field_other (c : Categories) (t : TestResult) :
    (catAdd c t).other =
      if categoryOf t = "Other Tests" then c.other ++ [t] else c.other := by
  unfold catAdd categoryOf
  by_cases h1 : hasTermIn blood_terms (lowerStr t.test_name) = true <;>
  by_cases h2 : hasTermIn metabolic_terms (lowerStr t.test_name) = true <;>
  by_cases h3 : hasTermIn liver_terms (lowerStr t.test_name) = true <;>
  by_cases h4 : hasTermIn kidney_terms (lowerStr t.test_name) = true <;>
  by_cases h5 : hasTermIn lipid_terms (lowerStr t.test_name) = true <;>
  by_cases h6 : hasTermIn thyroid_terms (lowerStr t.test_name) = true <;>
  simp [h1, h2, h3, h4, h5, h6]

theorem foldl_catAdd_proj (proj : Categories → List TestResult) (name : String)
    (hstep : ∀ c t, proj (catAdd c t) =
      if categoryOf t = name then proj c ++ [t] else proj c) :
    ∀ (ts : List TestResult) (acc : Categories),
      proj (ts.foldl catAdd acc) =
        proj acc ++ ts.filter (fun t => categoryOf t == name) := by
  intro ts
  induction ts with
  | nil => intro acc; simp
  | cons t ts ih =>
    intro acc
    rw [List.foldl_cons, ih, hstep, List.filter_cons]
    by_cases h : categoryOf t = name
    · simp [h]
    · simp [h]

theorem categoryOf_cases (t : TestResult) :
    categoryOf t = "Blood Count" ∨ categoryOf t = "Metabolic Panel" ∨
    categoryOf t = "Liver Function" ∨ categoryOf t = "Kidney Function" ∨
    categoryOf t = "Lipids (Cholesterol)" ∨ categoryOf t = "Thyroid Function" ∨
    categoryOf t = "Other Tests" := by
  unfold categoryOf
  by_cases h1 : hasTermIn blood_terms (lowerStr t.test_name) = true <;>
  by_cases h2 : hasTermIn metabolic_terms (lowerStr t.test_name) = true <;>
  by_cases h3 : hasTermIn liver_terms (lowerStr t.test_name) = true <;>
  by_cases h4 : hasTermIn kidney_terms (lowerStr t.test_name) = true <;>
  by_cases h5 : hasTermIn lipid_terms (lowerStr t.test_name) = true <;>
  by_cases h6 : hasTermIn thyroid_terms (lowerStr t.test_name) = true <;>
  simp [h1, h2, h3, h4, h5, h6]

/-- Claim C5: the categorizer sends every test to exactly one of the
seven fixed categories, the category being the first whose keyword list
hits the lower cased test name (Other Tests when none), and within each
category tests keep the relative order of the input.  The first part
states each category list as the order preserving filter of the input by
the first-match category function; the second part states that each test
matches exactly one of the seven category names. -/
theorem C5_categorizer :
    ∀ ts : List TestResult,
      (categorize_tests ts).toPairs =
        sevenCategoryNames.map (fun n => (n, ts.filter (fun t => categoryOf t == n))) ∧
      ∀ t : TestResult,
        (sevenCategoryNames.filter (fun n => categoryOf t == n)).length = 1 := by
  intro ts
  constructor
  · have hb : (ts.foldl catAdd emptyCategories).blood =
        ts.filter (fun t => categoryOf t == "Blood Count") := by
      simpa [emptyCategories] using
        foldl_catAdd_proj Categories.blood "Blood Count" catAdd_field_blood ts emptyCategories
    have hm : (ts.foldl catAdd emptyCategories).metabolic =
        ts.filter (fun t => categoryOf t == "Metabolic Panel") := by
      simpa [emptyCategories] using
        foldl_catAdd_proj Categories.metabolic "Metabolic Panel" catAdd_field_metabolic ts emptyCategories
    have hl : (ts.foldl catAdd emptyCategories).liver =
        ts.filter (fun t => categoryOf t == "Liver Function") := by
      simpa [emptyCategories] using
        foldl_catAdd_proj Categories.liver "Liver Function" catAdd_field_liver ts emptyCategories
    have hk : (ts.foldl catAdd emptyCategories).kidney =
        ts.filter (fun t => categoryOf t == "Kidney Function") := by
      simpa [emptyCategories] using
        foldl_catAdd_proj Categories.kidney "Kidney Function" catAdd_field_kidney ts emptyCategories
    have hp : (ts.foldl catAdd emptyCategories).lipids =
        ts.filter (fun t => categoryOf t == "Lipids (Cholesterol)") := by
      simpa [emptyCategories] using
        foldl_catAdd_proj Categories.lipids "Lipids (Cholesterol)" catAdd_field_lipids ts emptyCategories
    have hth : (ts.foldl catAdd emptyCategories).thyroid =
        ts.filter (fun t => categoryOf t == "Thyroid Function") := by
      simpa [emptyCategories] using
        foldl_catAdd_proj Categories.thyroid "Thyroid Function" catAdd_field_thyroid ts emptyCategories
    have ho : (ts.foldl catAdd emptyCategories).other =
        ts.filter (fun t => categoryOf t == "Other Tests") := by
      simpa [emptyCategories] using
        foldl_catAdd_proj Categories.other "Other Tests" catAdd_field_other ts emptyCategories
    simp [categorize_tests, Categories.toPairs, sevenCategoryNames,
      hb, hm, hl, hk, hp, hth, ho]
  · intro t
    rcases categoryOf_cases t with h | h | h | h | h | h | h <;>
      simp only [h] <;> decide

/-- Claim C6: the orchestrator returns the fixed no readable text error
payload whenever the stripped raw text is empty; whenever the pipeline
raises (the strip check having passed), the exception is caught and
converted to an error payload carrying its message; and every outcome is
a well formed payload with status error or success, never a propagated
exception. -/
theorem C6_orchestrator :
    ∀ now ptime raw_text : String,
      (pyStrip raw_text = "" →
        process_report now ptime raw_text =
          .err "No readable text content found. Please provide a file with text or text content directly.") ∧
      (pyStrip raw_text ≠ "" →
        ∀ e : String,
          simplify_medical_report now (preprocess_text raw_text) = .error e →
          process_report now ptime raw_text =
            .err ("Error processing report: " ++ e)) ∧
      ((process_report now ptime raw_text).statusStr = "error" ∨
       (process_report now ptime raw_text).statusStr = "success") := by
  intro now ptime raw_text
  refine ⟨?_, ?_, ?_⟩
  · intro h
    unfold process_report
    rw [if_pos h]
  · intro hne e he
    unfold process_report
    rw [if_neg hne, he]
  · cases hp : process_report now ptime raw_text with
    | err m => exact Or.inl rfl
    | success r => exact Or.inr rfl

set_option maxHeartbeats 1600000 in
/-- Witness for C6: whitespace only input yields the fixed error
payload, and the zero width range 0-0 drives the classifier into the
uncaught ZeroDivisionError which the orchestrator converts into an error
payload carrying the exception message. -/
theorem C6_witness :
    process_report "d" "p" "   " =
      .err "No readable text content found. Please provide a file with text or text content directly." ∧
    process_report "d" "p" "A: 5 u (0-0)" =
      .err ("Error processing report: " ++ "float division by zero") :=
  ⟨(C6_orchestrator "d" "p" "   ").1 rfl,
   (C6_orchestrator "d" "p" "A: 5 u (0-0)").2.1 (by decide) "float division by zero" (by decide)⟩

set_option maxHeartbeats 1600000 in
/-- Counterexample to claim C9 as stated: on input hello, a successful
run stores he110 in original_text, the preprocessed text, although the
original text hello is well under 1000 characters and the claim says it
is stored unchanged. -/
theorem C9_counterexample :
    payloadOriginalText (process_report "d" "p" "hello") = some "he110" ∧
    "he110" ≠ "hello" ∧ strLen "hello" ≤ 1000 :=
  ⟨by decide, by decide, by decide⟩

/-- Claim C9 amended: for every successful run, original_text is the
preprocessed (cleaned) text truncated to its first 1000 characters with
an ellipsis appended when the cleaned text exceeds 1000 characters, and
the full cleaned text otherwise.  It is the cleaned text, not the
original input, that is stored. -/
theorem C9_amended :
    ∀ (now ptime text : String) (r : SuccessRecord),
      process_report now ptime text = .success r →
      r.original_text =
        (if 1000 < strLen (preprocess_text text) then
          strTake (preprocess_text text) 1000 ++ "..."
        else preprocess_text text) := by
  intro now ptime text r h
  unfold process_report at h
  by_cases he : pyStrip text = ""
  · rw [if_pos he] at h
    exact Payload.noConfusion h
  · rw [if_neg he] at h
    cases hs : simplify_medical_report now (preprocess_text text) with
    | error e =>
      rw [hs] at h
      exact Payload.noConfusion h
    | ok s =>
      rw [hs] at h
      rw [← Payload.success.inj h]
      simp only [buildSuccess]

set_option maxHeartbeats 1600000 in
/-- Witness for C9 amended at the input hello. -/
theorem C9_witness :
    (process_report "d" "p" "hello").isSuccessB = true ∧
    payloadOriginalText (process_report "d" "p" "hello") =
      some (if 1000 < strLen (preprocess_text "hello") then
          strTake (preprocess_text "hello") 1000 ++ "..."
        else preprocess_text "hello") := by
  have hs : (process_report "d" "p" "hello").isSuccessB = true := by decide
  refine ⟨hs, ?_⟩
  cases h : process_report "d" "p" "hello" with
  | err m =>
    rw [h] at hs
    exact Bool.noConfusion hs
  | success r =>
    have h2 := C9_amended "d" "p" "hello" r h
    simp only [payloadOriginalText, h2]

/-- Claim C10: for a declared content type that is not plain text, PDF
or an image type, the text extractor returns the fixed instructional
string naming the type; and for every input the extractor never raises:
an exception from the try body is degraded to the empty string (and the
PDF and image helpers degrade their own failures to fixed sentinel
strings), so every outcome is a plain string. -/
theorem C10_extract_text :
    (∀ (ft : String) (a b c : ReadOutcome),
      ft ≠ "text/plain" → ft ≠ "application/pdf" →
      strStartsWith ft "image/" = false →
      extract_text_from_file ft a b c =
        "File type " ++ ft ++ " detected. Please provide text content directly for best results.") ∧
    (∀ (ft : String) (a b c : ReadOutcome) (e : String),
      extractTextCore ft a b c = .error e →
      extract_text_from_file ft a b c = "") ∧
    (∀ (t : String), extract_text_from_pdf (.exn t) =
      "PDF content extraction failed. Please upload as text file.") ∧
    (∀ (t : String), extract_text_from_image (.exn t) =
      "Image text extraction failed. Please ensure image is clear and well-lit.") := by
  refine ⟨?_, ?_, fun t => rfl, fun t => rfl⟩
  · intro ft a b c h1 h2 h3
    unfold extract_text_from_file extractTextCore
    rw [if_neg h1, if_neg h2, h3]
    simp
  · intro ft a b c e h
    unfold extract_text_from_file
    rw [h]

/-- Witness for C10: an application/json upload receives the
instructional string, and a failing plain text read degrades to the
empty string. -/
theorem C10_witness :
    extract_text_from_file "application/json" (.ok "x") (.ok "y") (.ok "z") =
      "File type application/json detected. Please provide text content directly for best results." ∧
    extract_text_from_file "text/plain" (.exn "boom") (.ok "y") (.ok "z") = "" :=
  ⟨C10_extract_text.1 "application/json" (.ok "x") (.ok "y") (.ok "z")
      (by decide) (by decide) (by decide),
   C10_extract_text.2.1 "text/plain" (.exn "boom") (.ok "y") (.ok "z") "boom" (by decide)⟩
